import Mathlib

/-!
Verification of gerber-to-dxf.py: a shallow embedding of its coordinate
decoder, Gerber outline scanner, Excellon drill scanner and DXF serializer,
with theorems about them.  Python floats are modelled as exact rationals;
the transcendental library functions math.hypot and math.atan2 composed with
math.degrees are abstracted as parameters (a GeomOps record), since their
values are irrational in general; theorems that need concrete values of them
take those values as hypotheses.
-/

set_option maxRecDepth 4000

namespace GerberDxf

/-- Numeric value of an ASCII digit character. -/
def digitVal (c : Char) : ℕ := c.toNat - 48

/-- Value of an all-digit string read in base 10, as Python int reads it. -/
def natOfDigits (ds : List Char) : ℕ := ds.foldl (fun a c => 10 * a + digitVal c) 0

/-- Value of an unsigned decimal literal (digits with at most one dot), as
Python float reads it, modelled exactly as a rational. -/
def ratOfDecimal (ds : List Char) : ℚ :=
  let ip := ds.takeWhile (fun c => c != '.')
  match ds.dropWhile (fun c => c != '.') with
  | [] => (natOfDigits ip : ℚ)
  | _ :: fp => (natOfDigits ip : ℚ) + (natOfDigits fp : ℚ) / ((10 ^ fp.length : ℕ) : ℚ)

/-- Sign factor of a token: -1 when it starts with a minus sign, else 1.
Models the line sign = -1.0 if value.startswith("-") else 1.0. -/
def signOf (v : List Char) : ℚ := if v.head? = some '-' then -1 else 1

/-- Drop one leading plus or minus sign: models value[1:] if value[:1] in "+-"
else value. -/
def stripSign (v : List Char) : List Char :=
  match v with
  | c :: rest => if c = '+' ∨ c = '-' then rest else v
  | [] => []

/-- Pad on the left with zeros up to the given width, as str.rjust(total, "0"). -/
def leftPad (total : ℕ) (ds : List Char) : List Char :=
  List.replicate (total - ds.length) '0' ++ ds

/-- Pad on the right with zeros up to the given width, as str.ljust(total, "0"). -/
def rightPad (total : ℕ) (ds : List Char) : List Char :=
  ds ++ List.replicate (total - ds.length) '0'

/-- The Python slice digits[-n:]: the last n characters when n is positive, but
the whole string when n = 0 (since -0 is 0, the slice starts at index 0). -/
def takeLastPy (n : ℕ) (ds : List Char) : List Char :=
  if n = 0 then ds else ds.drop (ds.length - n)

/-- The rightmost n characters of a list (the plain reference meaning, without
the Python slice quirk at n = 0). -/
def takeLast (n : ℕ) (ds : List Char) : List Char := ds.drop (ds.length - n)

/-- Embedding of parse_gerber_coord (gerber-to-dxf.py lines 13-29), on the
character list of the token.  A token with a decimal dot is read directly as a
decimal; otherwise it is padded or truncated to int digits plus dec digits and
read as an integer scaled by ten to the minus dec digits, with the sign applied. -/
def parseGerberCoordL (value : List Char) (intDigits decDigits : ℕ)
    (zeroSuppression : String) : ℚ :=
  let sign := signOf value
  let digits := stripSign value
  if '.' ∈ digits then sign * ratOfDecimal digits
  else
    let total := intDigits + decDigits
    let digits2 :=
      if digits.length < total then
        if zeroSuppression = "L" then leftPad total digits
        else if zeroSuppression = "T" then rightPad total digits
        else leftPad total digits
      else if total < digits.length then takeLastPy total digits
      else digits
    sign * ((natOfDigits digits2 : ℚ) / ((10 ^ decDigits : ℕ) : ℚ))

/-- parse_gerber_coord on a string token. -/
def parseGerberCoord (value : String) (intDigits decDigits : ℕ)
    (zeroSuppression : String) : ℚ :=
  parseGerberCoordL value.toList intDigits decDigits zeroSuppression

/-- The plain signed decimal reading of a token: the sign factor times the
decimal value of the rest.  This is the reference meaning of a token that
carries a decimal dot. -/
def decimalValue (v : List Char) : ℚ := signOf v * ratOfDecimal (stripSign v)

/-- All matches of the pattern G0?([123]) in a character list, in order, as
re.findall does with non-overlapping scanning: at a G the optional zero is
taken greedily when a 1, 2 or 3 follows it; on failure the scan resumes one
character further. -/
def findGCodes : List Char → List Char
  | 'G' :: '0' :: c :: cs =>
      if c = '1' ∨ c = '2' ∨ c = '3' then c :: findGCodes cs
      else findGCodes ('0' :: c :: cs)
  | 'G' :: c :: cs =>
      if c = '1' ∨ c = '2' ∨ c = '3' then c :: findGCodes cs
      else findGCodes (c :: cs)
  | _ :: rest => findGCodes rest
  | [] => []

/-- The captured numbers of all matches of D0?(\d+) in a character list, in
order, with non-overlapping scanning as re.finditer does.  At a D followed by
a zero: when another digit follows, the zero is matched by the optional part
and the capture is the following digit run; otherwise the optional part
backtracks to empty and the capture is the zero itself. -/
def findDTokensAux : ℕ → List Char → List ℕ
  | fuel + 1, 'D' :: '0' :: c :: cs =>
      if c.isDigit then
        natOfDigits (c :: cs.takeWhile Char.isDigit) ::
          findDTokensAux fuel (cs.dropWhile Char.isDigit)
      else 0 :: findDTokensAux fuel (c :: cs)
  | _ + 1, ['D', '0'] => [0]
  | fuel + 1, 'D' :: c :: cs =>
      if c.isDigit then
        natOfDigits (c :: cs.takeWhile Char.isDigit) ::
          findDTokensAux fuel (cs.dropWhile Char.isDigit)
      else findDTokensAux fuel (c :: cs)
  | fuel + 1, _ :: rest => findDTokensAux fuel rest
  | _, _ => []

/-- The scan itself: the fuel starts at the length of the list and every step
of the auxiliary consumes at least one character, so the fuel never runs out. -/
def findDTokens (l : List Char) : List ℕ := findDTokensAux l.length l

/-- The operation code of a line: the loop over the D matches keeps the last
value that is 1, 2 or 3, as the dcode loop does. -/
def lastOpCode (l : List Char) : Option ℕ :=
  (findDTokens l).foldl (fun acc v => if v = 1 ∨ v = 2 ∨ v = 3 then some v else acc) none

/-- The interpolation-mode loop: every G code found on the line is applied in
order, 1 selecting LINEAR, 2 selecting CW and 3 selecting CCW. -/
def applyGCodes (mode : String) (l : List Char) : String :=
  (findGCodes l).foldl
    (fun m c => if c = '1' then "LINEAR" else if c = '2' then "CW" else if c = '3' then "CCW" else m)
    mode

/-- The capture of the pattern ([+\-]?\d*\.?\d+) anchored at the start of a
character list, with the backtracking regex semantics: an optional sign, a
greedy digit run, then an optional dot only when at least one digit follows
it; none when no digit at all can be matched. -/
def numToken (l : List Char) : Option (List Char) :=
  let sgn : List Char := match l with
    | c :: _ => if c = '+' ∨ c = '-' then [c] else []
    | [] => []
  let rest := match l with
    | c :: cs => if c = '+' ∨ c = '-' then cs else l
    | [] => []
  let a := rest.takeWhile Char.isDigit
  match rest.dropWhile Char.isDigit with
  | '.' :: cs =>
      let b := cs.takeWhile Char.isDigit
      if b.isEmpty then (if a.isEmpty then none else some (sgn ++ a))
      else some (sgn ++ a ++ '.' :: b)
  | _ => if a.isEmpty then none else some (sgn ++ a)

/-- re.search for letter([+\-]?\d*\.?\d+) with IGNORECASE: the first position
whose character uppercases to the letter and is followed by a number token
yields that token. -/
def axisCapture (letter : Char) : List Char → Option (List Char)
  | [] => none
  | c :: cs =>
      if c.toUpper = letter then
        match numToken cs with
        | some t => some t
        | none => axisCapture letter cs
      else axisCapture letter cs

/-- The two transcendental helpers the outline scanner calls: hypot x y models
math.hypot(x, y) and atan2deg y x models math.degrees(math.atan2(y, x)).
They are abstracted because their values are irrational in general; theorems
needing concrete values take them as hypotheses stating the known mathematical
values at those points. -/
structure GeomOps where
  hypot : ℚ → ℚ → ℚ
  atan2deg : ℚ → ℚ → ℚ

/-- The Python float modulo a % 360.0, which returns the representative in the
interval from 0 inclusive to 360 exclusive. -/
def mod360 (q : ℚ) : ℚ := q - 360 * ⌊q / 360⌋

/-- An outline entity: the tuples tagged LINE and ARC that
parse_gerber_outline collects. -/
inductive Entity where
  | line (x1 y1 x2 y2 : ℚ)
  | arc (cx cy radius startAngle endAngle : ℚ)
deriving DecidableEq

/-- The mutable scanning state of parse_gerber_outline. -/
structure GerberState where
  xInt : ℕ
  xDec : ℕ
  yInt : ℕ
  yDec : ℕ
  zeroSuppression : String
  units : String
  mode : String
  curX : Option ℚ
  curY : Option ℚ
  entities : List Entity
deriving DecidableEq

/-- The initial state of parse_gerber_outline (gerber-to-dxf.py lines 50-60). -/
def initGerberState : GerberState :=
  { xInt := 4, xDec := 6, yInt := 4, yDec := 6, zeroSuppression := "L",
    units := "MM", mode := "LINEAR", curX := none, curY := none, entities := [] }

/-- The entity built by a draw operation (gerber-to-dxf.py lines 120-132): a
LINE in LINEAR mode, otherwise an ARC whose center is the current point plus
the I and J offsets, whose radius is the distance from the current point to
the center, and whose angles are the normalized directions of the current and
next points seen from the center, swapped when the mode is CW. -/
def drawEntity (ops : GeomOps) (mode : String) (curX curY nextX nextY iOff jOff : ℚ) :
    Entity :=
  if mode = "LINEAR" then .line curX curY nextX nextY
  else
    let cx := curX + iOff
    let cy := curY + jOff
    let radius := ops.hypot (curX - cx) (curY - cy)
    let startAngle := mod360 (ops.atan2deg (curY - cy) (curX - cx))
    let endAngle := mod360 (ops.atan2deg (nextY - cy) (nextX - cx))
    if mode = "CW" then .arc cx cy radius endAngle startAngle
    else .arc cx cy radius startAngle endAngle

/-- The format-spec pattern FS([LTD])A?X(\d)(\d)Y(\d)(\d) anchored on both
sides, applied to the text between the percent signs. -/
def parseFSParam (p : List Char) : Option (String × ℕ × ℕ × ℕ × ℕ) :=
  match p with
  | 'F' :: 'S' :: z :: rest =>
      if z = 'L' ∨ z = 'T' ∨ z = 'D' then
        let rest2 := match rest with
          | 'A' :: r => r
          | r => r
        match rest2 with
        | ['X', a, b, 'Y', c, d] =>
            if a.isDigit ∧ b.isDigit ∧ c.isDigit ∧ d.isDigit then
              some (String.mk [z], digitVal a, digitVal b, digitVal c, digitVal d)
            else none
        | _ => none
      else none
  | _ => none

/-- Handling of a bracketed parameter block (gerber-to-dxf.py lines 69-82):
a format-spec directive replaces the suppression mode and all four digit
counts, MOIN and MOMM set the units, anything else is ignored. -/
def paramStep (st : GerberState) (line : List Char) : GerberState :=
  let p := ((line.drop 1).dropLast).map Char.toUpper
  match parseFSParam p with
  | some (z, xi, xd, yi, yd) =>
      { st with zeroSuppression := z, xInt := xi, xDec := xd, yInt := yi, yDec := yd }
  | none =>
      if p = "MOIN".toList then { st with units := "IN" }
      else if p = "MOMM".toList then { st with units := "MM" }
      else st

/-- The next X position of a command line: the decoded X token when the line
carries one, otherwise the current X carried over. -/
def resolveNextX (st : GerberState) (l : List Char) : Option ℚ :=
  match axisCapture 'X' l with
  | some t => some (parseGerberCoordL t st.xInt st.xDec st.zeroSuppression)
  | none => st.curX

/-- The next Y position of a command line, like resolveNextX for Y. -/
def resolveNextY (st : GerberState) (l : List Char) : Option ℚ :=
  match axisCapture 'Y' l with
  | some t => some (parseGerberCoordL t st.yInt st.yDec st.zeroSuppression)
  | none => st.curY

/-- Handling of a command line (gerber-to-dxf.py lines 84-133): apply the G
codes to the mode, take the last operation code among 1, 2 and 3, decode the
coordinates; a move updates the position, a draw with fully resolved current
and next positions emits an entity and updates the position, and any other
line leaves position and entities alone. -/
def commandStep (ops : GeomOps) (st : GerberState) (l : List Char) : GerberState :=
  let upper := l.map Char.toUpper
  let mode := applyGCodes st.mode upper
  let dcode := lastOpCode upper
  let nextX := resolveNextX st l
  let nextY := resolveNextY st l
  if dcode = some 2 then
    { st with mode := mode, curX := nextX, curY := nextY }
  else if dcode = some 1 then
    match st.curX, st.curY, nextX, nextY with
    | some cx, some cy, some nx, some ny =>
        let iOff := match axisCapture 'I' l with
          | some t => parseGerberCoordL t st.xInt st.xDec st.zeroSuppression
          | none => 0
        let jOff := match axisCapture 'J' l with
          | some t => parseGerberCoordL t st.yInt st.yDec st.zeroSuppression
          | none => 0
        { st with mode := mode, curX := nextX, curY := nextY,
                  entities := st.entities ++ [drawEntity ops mode cx cy nx ny iOff jOff] }
    | _, _, _, _ => { st with mode := mode }
  else
    { st with mode := mode }

/-- One line of parse_gerber_outline (gerber-to-dxf.py lines 62-133): strip
whitespace, skip blank lines and G04 comments, strip one trailing star, then
dispatch to the parameter-block handler or the command handler. -/
def processLine (ops : GeomOps) (st : GerberState) (raw : String) : GerberState :=
  let line := (raw.toList.dropWhile Char.isWhitespace).reverse.dropWhile Char.isWhitespace
    |>.reverse
  if line.isEmpty || ['G', '0', '4'].isPrefixOf line then st
  else
    let line2 := if line.getLast? = some '*' then line.dropLast else line
    if line2.head? = some '%' ∧ line2.getLast? = some '%' then paramStep st line2
    else commandStep ops st line2

/-- The scanning loop of parse_gerber_outline over the lines of the file. -/
def scanGerber (ops : GeomOps) (lines : List String) : GerberState :=
  lines.foldl (processLine ops) initGerberState

/-- The unit factor applied after scanning: 25.4 for inches, 1 for
millimeters. -/
def unitFactor (units : String) : ℚ := if units = "IN" then 25.4 else 1

/-- The conversion loop of parse_gerber_outline (gerber-to-dxf.py lines
136-143): multiply line endpoints, arc centers and arc radii by the factor,
leaving arc angles alone. -/
def convertEntities (factor : ℚ) : List Entity → List Entity
  | [] => []
  | .line x1 y1 x2 y2 :: rest =>
      .line (x1 * factor) (y1 * factor) (x2 * factor) (y2 * factor)
        :: convertEntities factor rest
  | .arc cx cy r a0 a1 :: rest =>
      .arc (cx * factor) (cy * factor) (r * factor) a0 a1 :: convertEntities factor rest

/-- Embedding of parse_gerber_outline, taking the list of lines of the file:
scan all lines, then convert every stored entity by the unit factor of the
units last in effect. -/
def parseGerberOutline (ops : GeomOps) (lines : List String) : List Entity :=
  let st := scanGerber ops lines
  convertEntities (unitFactor st.units) st.entities

/-- Geometry functions used to build witnesses at concrete inputs: they return
the true values of hypot and of degrees-of-atan2 at the axis-aligned points the
witnesses use. -/
def axisOps : GeomOps :=
  { hypot := fun _ _ => 10, atan2deg := fun y _ => if y = 10 then 90 else 0 }

/-- A geometry parameter used where the result does not depend on the
geometry functions at all. -/
def zeroOps : GeomOps := { hypot := fun _ _ => 0, atan2deg := fun _ _ => 0 }

/-- The value of a signed decimal token, as Python float reads the capture of
([+\-]?\d*\.?\d+). -/
def parseFloatToken (t : List Char) : ℚ := signOf t * ratOfDecimal (stripSign t)

/-- Whether a whole character list matches [+\-]?\d*\.?\d+ with nothing left
over. -/
def isNumTokenFull (l : List Char) : Bool :=
  let rest := match l with
    | c :: cs => if c = '+' ∨ c = '-' then cs else l
    | [] => []
  let a := rest.takeWhile Char.isDigit
  match rest.dropWhile Char.isDigit with
  | [] => !a.isEmpty
  | '.' :: b => !b.isEmpty && b.all Char.isDigit
  | _ => false

/-- The anchored tool-definition pattern T(\d+)C([+\-]?\d*\.?\d+): the tool
number and its diameter.  The number token must reach the end of the line. -/
def parseToolDef (l : List Char) : Option (ℕ × ℚ) :=
  match l with
  | 'T' :: rest =>
      let ds := rest.takeWhile Char.isDigit
      match rest.dropWhile Char.isDigit with
      | 'C' :: num =>
          if ds.isEmpty then none
          else if isNumTokenFull num then some (natOfDigits ds, parseFloatToken num)
          else none
      | _ => none
  | _ => none

/-- The anchored tool-selection pattern T(\d+). -/
def parseToolSel (l : List Char) : Option ℕ :=
  match l with
  | 'T' :: rest =>
      if rest.isEmpty then none
      else if rest.all Char.isDigit then some (natOfDigits rest) else none
  | _ => none

/-- The test max_hole_size_mm is not None and diameter_mm > max_hole_size_mm. -/
def overMax (maxHoleSizeMm : Option ℚ) (diameterMm : ℚ) : Bool :=
  match maxHoleSizeMm with
  | some m => diameterMm > m
  | none => false

/-- The mutable scanning state of parse_drill_file.  The tool table is a
mapping from tool numbers to diameters in native units, as the Python dict. -/
structure DrillState where
  units : String
  toolDiameter : ℕ → Option ℚ
  currentTool : Option ℕ
  curX : Option ℚ
  curY : Option ℚ
  holes : List (ℚ × ℚ × ℚ)

/-- The initial state of parse_drill_file (gerber-to-dxf.py lines 151-156). -/
def initDrillState : DrillState :=
  { units := "IN", toolDiameter := fun _ => none, currentTool := none,
    curX := none, curY := none, holes := [] }

/-- One line of parse_drill_file (gerber-to-dxf.py lines 158-202): skip blanks
and semicolon comments, handle unit directives, tool definitions, tool
selections and known no-ops, and on a coordinate line update the position and
emit a hole when tool, position and a registered diameter are all present and
the millimeter diameter passes the bounds. -/
def drillStep (minHoleSizeMm : ℚ) (maxHoleSizeMm : Option ℚ) (st : DrillState)
    (raw : String) : DrillState :=
  let line := (raw.toList.dropWhile Char.isWhitespace).reverse.dropWhile Char.isWhitespace
    |>.reverse
  if line.isEmpty || line.head? = some ';' then st
  else
    let upper := line.map Char.toUpper
    if "INCH".toList.isPrefixOf upper then { st with units := "IN" }
    else if "METRIC".toList.isPrefixOf upper then { st with units := "MM" }
    else
      match parseToolDef upper with
      | some (t, d) =>
          { st with toolDiameter := fun n => if n = t then some d else st.toolDiameter n }
      | none =>
          match parseToolSel upper with
          | some t => { st with currentTool := some t }
          | none =>
              if upper = "M48".toList ∨ upper = "%".toList ∨ upper = "G90".toList ∨
                  upper = "G05".toList ∨ upper = "M30".toList ∨
                  "FMAT".toList.isPrefixOf upper then st
              else if upper.head? = some 'X' ∨ upper.head? = some 'Y' then
                let newX := match axisCapture 'X' line with
                  | some t => some (parseFloatToken t)
                  | none => st.curX
                let newY := match axisCapture 'Y' line with
                  | some t => some (parseFloatToken t)
                  | none => st.curY
                let st2 := { st with curX := newX, curY := newY }
                match st.currentTool, newX, newY with
                | some tool, some x, some y =>
                    match st.toolDiameter tool with
                    | some dia =>
                        let factor := unitFactor st.units
                        let diameterMm := dia * factor
                        if diameterMm < minHoleSizeMm then st2
                        else if overMax maxHoleSizeMm diameterMm then st2
                        else { st2 with holes := st2.holes ++ [(x * factor, y * factor, diameterMm)] }
                    | none => st2
                | _, _, _ => st2
              else st

/-- Embedding of parse_drill_file, taking the list of lines of the file and
the two bounds, and returning the emitted hole records. -/
def parseDrillFile (lines : List String) (minHoleSizeMm : ℚ)
    (maxHoleSizeMm : Option ℚ) : List (ℚ × ℚ × ℚ) :=
  (lines.foldl (drillStep minHoleSizeMm maxHoleSizeMm) initDrillState).holes

/-- Zero padding on the left to a given width, for the fractional digits. -/
def padZeros (w : ℕ) (s : List Char) : List Char :=
  List.replicate (w - s.length) '0' ++ s

/-- The fixed six-decimal formatting of a value, as the format specifier .6f
renders it: the value is rounded to six decimals and printed with exactly six
fractional digits.  The Python code formats the nearest double; on the exact
rational model the rounding at ties is to the nearest integer upward, a point
no theorem here depends on. -/
def fmt6 (q : ℚ) : String :=
  let n : ℤ := round (q * 1000000)
  let m : ℕ := n.natAbs
  (if n < 0 then "-" else "") ++ toString (m / 1000000) ++ "." ++
    String.mk (padZeros 6 (toString (m % 1000000)).toList)

/-- The header and tables part of write_dxf (gerber-to-dxf.py lines 238-289):
each argument of the emit call followed by a newline. -/
def dxfHeader : String :=
  "0\nSECTION\n2\nHEADER\n9\n$INSUNITS\n70\n4\n0\nENDSEC\n0\nSECTION\n2\nTABLES\n" ++
  "0\nTABLE\n2\nLAYER\n70\n2\n0\nLAYER\n2\nOUTLINE\n70\n0\n62\n7\n6\nCONTINUOUS\n" ++
  "0\nLAYER\n2\nMOUNTING_HOLES\n70\n0\n62\n1\n6\nCONTINUOUS\n0\nENDTAB\n0\nENDSEC\n" ++
  "0\nSECTION\n2\nENTITIES\n"

/-- The part emitted for one outline entity (gerber-to-dxf.py lines 291-335). -/
def entityPart (e : Entity) : String :=
  match e with
  | .line x1 y1 x2 y2 =>
      "0\nLINE\n8\nOUTLINE\n10\n" ++ fmt6 x1 ++ "\n20\n" ++ fmt6 y1 ++ "\n30\n0.0\n11\n"
        ++ fmt6 x2 ++ "\n21\n" ++ fmt6 y2 ++ "\n31\n0.0\n"
  | .arc cx cy r a0 a1 =>
      "0\nARC\n8\nOUTLINE\n10\n" ++ fmt6 cx ++ "\n20\n" ++ fmt6 cy ++ "\n30\n0.0\n40\n"
        ++ fmt6 r ++ "\n50\n" ++ fmt6 a0 ++ "\n51\n" ++ fmt6 a1 ++ "\n"

/-- The part emitted for one hole record (gerber-to-dxf.py lines 337-353): a
CIRCLE on the MOUNTING_HOLES layer whose radius field is half the diameter. -/
def holePart (h : ℚ × ℚ × ℚ) : String :=
  "0\nCIRCLE\n8\nMOUNTING_HOLES\n10\n" ++ fmt6 h.1 ++ "\n20\n" ++ fmt6 h.2.1 ++
    "\n30\n0.0\n40\n" ++ fmt6 (h.2.2 / 2) ++ "\n"

/-- The closing part of write_dxf (gerber-to-dxf.py line 355). -/
def dxfTrailer : String := "0\nENDSEC\n0\nEOF\n"

/-- The parts list that write_dxf builds: the header, one part per outline
entity, one part per hole, and the trailer. -/
def writeDxfParts (outline : List Entity) (holes : List (ℚ × ℚ × ℚ)) : List String :=
  dxfHeader :: (outline.map entityPart ++ holes.map holePart ++ [dxfTrailer])

/-- The document write_dxf writes: the concatenation of all parts. -/
def writeDxf (outline : List Entity) (holes : List (ℚ × ℚ × ℚ)) : String :=
  String.join (writeDxfParts outline holes)

/-- A scanning state whose current position is the origin, used as a concrete
starting point in witnesses and counterexamples. -/
def stateAt00 : GerberState :=
  { initGerberState with curX := some 0, curY := some 0 }

example : parseGerberCoord "10000000" 4 6 "L" = 10 := by with_unfolding_all decide

example : parseGerberCoord "-10000000" 4 6 "L" = -10 := by with_unfolding_all decide

example : parseGerberCoord "12.5" 2 3 "T" = 25 / 2 := by with_unfolding_all decide

example : parseGerberCoord "1" 1 1 "T" = 1 := by with_unfolding_all decide

example : parseGerberCoord "12" 1 1 "L" = 6 / 5 := by with_unfolding_all decide

example : parseGerberCoord "123" 1 1 "L" = 23 / 10 := by with_unfolding_all decide

example : parseGerberCoord "5" 0 0 "L" = 5 := by with_unfolding_all decide

example : findGCodes "G01X2".toList = ['1'] := by decide

example : findGCodes "G02".toList = ['2'] := by decide

example : findGCodes "G0X1".toList = [] := by decide

example : findDTokens "X0Y0D02".toList = [2] := by decide

example : findDTokens "D001".toList = [1] := by decide

example : findDTokens "D0Q".toList = [0] := by decide

example : findDTokens "D10".toList = [10] := by decide

example : lastOpCode "D02X1D01".toList = some 1 := by decide

example : axisCapture 'X' "G01X-12.5Y3".toList = some "-12.5".toList := by decide

example : axisCapture 'Y' "G01X-12.5Y3".toList = some "3".toList := by decide

example : axisCapture 'I' "G01X-12.5Y3".toList = none := by decide

example : numToken "12.".toList = some "12".toList := by decide

example : numToken ".5Z".toList = some ".5".toList := by decide

example :
    parseDrillFile ["METRIC", "T01C3.000000", "T01", "X0Y0"] 3 none = [(0, 0, 3)] := by
  with_unfolding_all decide

example :
    parseDrillFile ["METRIC", "T01C3.000000", "T01", "X0Y0"] (31 / 10) none = [] := by
  with_unfolding_all decide

example :
    parseDrillFile ["METRIC", "T01C3.000000", "T01", "X0Y0"] 2 (some 4) = [(0, 0, 3)] := by
  with_unfolding_all decide

example : fmt6 10 = "10.000000" := by with_unfolding_all decide

example : fmt6 (-127 / 5) = "-25.400000" := by with_unfolding_all decide

example : fmt6 (1 / 3) = "0.333333" := by with_unfolding_all decide

theorem isDigit_ne_dot {c : Char} (h : c.isDigit = true) : c ≠ '.' := by
  intro heq
  subst heq
  exact absurd h (by decide)

theorem isDigit_ne_plus {c : Char} (h : c.isDigit = true) : c ≠ '+' := by
  intro heq
  subst heq
  exact absurd h (by decide)

theorem isDigit_ne_minus {c : Char} (h : c.isDigit = true) : c ≠ '-' := by
  intro heq
  subst heq
  exact absurd h (by decide)

theorem stripSign_digits {ds : List Char} (h : ∀ c ∈ ds, c.isDigit = true) :
    stripSign ds = ds := by
  cases ds with
  | nil => rfl
  | cons c rest =>
      have hc := h c (by simp)
      simp only [stripSign]
      rw [if_neg]
      rintro (rfl | rfl) <;> exact absurd hc (by decide)

theorem signOf_digits {ds : List Char} (h : ∀ c ∈ ds, c.isDigit = true) :
    signOf ds = 1 := by
  cases ds with
  | nil => rfl
  | cons c rest =>
      have hc := h c (by simp)
      simp only [signOf, List.head?]
      rw [if_neg]
      simp only [Option.some.injEq]
      exact isDigit_ne_minus hc

theorem dot_not_mem_digits {ds : List Char} (h : ∀ c ∈ ds, c.isDigit = true) :
    '.' ∉ ds := by
  intro hm
  exact absurd (h '.' hm) (by decide)

theorem convertEntities_eq_map (factor : ℚ) (es : List Entity) :
    convertEntities factor es = es.map
      (fun e => match e with
        | .line x1 y1 x2 y2 => .line (x1 * factor) (y1 * factor) (x2 * factor) (y2 * factor)
        | .arc cx cy r a0 a1 => .arc (cx * factor) (cy * factor) (r * factor) a0 a1) := by
  induction es with
  | nil => rfl
  | cons e rest ih => cases e <;> simp [convertEntities, ih]

theorem overMax_false_iff (maxHoleSizeMm : Option ℚ) (d : ℚ) :
    overMax maxHoleSizeMm d = false ↔ ∀ m ∈ maxHoleSizeMm, d ≤ m := by
  cases maxHoleSizeMm <;> simp [overMax]

/-- Claim C6: for every token carrying a decimal dot, the decoder returns the plain
signed decimal value of the token, and the result does not depend on the digit
counts or the zero-suppression mode. -/
theorem C6_decimal_token (v : List Char) (i d i2 d2 : ℕ) (zs zs2 : String)
    (h : '.' ∈ v) :
    parseGerberCoordL v i d zs = decimalValue v ∧
    parseGerberCoordL v i d zs = parseGerberCoordL v i2 d2 zs2 := by
  have hd : '.' ∈ stripSign v := by
    cases v with
    | nil => simp at h
    | cons c rest =>
        simp only [stripSign]
        by_cases hc : c = '+' ∨ c = '-'
        · rw [if_pos hc]
          rcases List.mem_cons.mp h with heq | hmem
          · exfalso
            rcases hc with rfl | rfl <;> exact absurd heq (by decide)
          · exact hmem
        · rwa [if_neg hc]
  constructor
  · simp [parseGerberCoordL, decimalValue, if_pos hd]
  · simp [parseGerberCoordL, if_pos hd]

/-- Witness for C6 at the token 12.5 with two different format specs. -/
theorem C6_decimal_token_witness :
    '.' ∈ "12.5".toList ∧
    (parseGerberCoordL "12.5".toList 4 6 "L" = decimalValue "12.5".toList ∧
     parseGerberCoordL "12.5".toList 4 6 "L" = parseGerberCoordL "12.5".toList 2 3 "T") :=
  ⟨by decide, C6_decimal_token "12.5".toList 4 6 2 3 "L" "T" (by decide)⟩

/-- Claim C9: serializing a single line entity yields exactly the header, one LINE
record on layer OUTLINE with both endpoints formatted to six decimals, and the
trailer; a single hole yields one CIRCLE record on layer MOUNTING_HOLES whose
radius field is the diameter halved, formatted to six decimals. -/
theorem C9_dxf_records (x1 y1 x2 y2 hx hy hd : ℚ) :
    writeDxfParts [.line x1 y1 x2 y2] [] =
      [dxfHeader,
       "0\nLINE\n8\nOUTLINE\n10\n" ++ fmt6 x1 ++ "\n20\n" ++ fmt6 y1 ++ "\n30\n0.0\n11\n"
         ++ fmt6 x2 ++ "\n21\n" ++ fmt6 y2 ++ "\n31\n0.0\n",
       dxfTrailer] ∧
    writeDxfParts [] [(hx, hy, hd)] =
      [dxfHeader,
       "0\nCIRCLE\n8\nMOUNTING_HOLES\n10\n" ++ fmt6 hx ++ "\n20\n" ++ fmt6 hy ++
         "\n30\n0.0\n40\n" ++ fmt6 (hd / 2) ++ "\n",
       dxfTrailer] :=
  ⟨rfl, rfl⟩

/-- Claim C2: the two-command program of one move to the origin and one linear draw
to X ten millimeters, under the initial state, yields exactly one line entity
from the origin to the point ten millimeters along X, whatever the geometry
functions are. -/
theorem C2_round_trip (ops : GeomOps) :
    parseGerberOutline ops ["X0Y0D02*", "X10000000Y0D01*"] = [.line 0 0 10 0] := by
  have h1 : processLine ops initGerberState "X0Y0D02*" = stateAt00 := by
    with_unfolding_all rfl
  have h2 : processLine ops stateAt00 "X10000000Y0D01*" =
      { initGerberState with curX := some 10, curY := some 0, entities := [.line 0 0 10 0] } := by
    with_unfolding_all rfl
  simp only [parseGerberOutline, scanGerber, List.foldl_cons, List.foldl_nil, h1, h2]
  with_unfolding_all decide

/-- Witness for C2 with a concrete choice of geometry functions. -/
theorem C2_round_trip_witness :
    parseGerberOutline zeroOps ["X0Y0D02*", "X10000000Y0D01*"] = [.line 0 0 10 0] :=
  C2_round_trip zeroOps

/-- Counterexample to C1 as stated: the line X5Y5D03 has operation code 3 and
supplies an X token decoding to a nonzero value, yet the scanner leaves the
current position at the origin instead of moving it there. -/
theorem C1_flash_counterexample :
    lastOpCode ("X5Y5D03".toList.map Char.toUpper) = some 3 ∧
    axisCapture 'X' "X5Y5D03".toList = some ['5'] ∧
    parseGerberCoordL ['5'] 4 6 "L" = 1 / 200000 ∧
    (commandStep zeroOps stateAt00 "X5Y5D03".toList).curX = some 0 ∧
    (0 : ℚ) ≠ 1 / 200000 :=
  ⟨by decide, by decide,
   by simp [parseGerberCoordL, signOf, stripSign, leftPad, takeLastPy, natOfDigits, digitVal,
        List.foldl, List.replicate]; norm_num,
   by with_unfolding_all decide,
   by norm_num⟩

/-- Claim C1 amended: on a command line whose last operation code is 3 or absent,
the scanner emits no geometry and leaves the current position unchanged; it
does not update it to the newly decoded coordinates. -/
theorem C1_flash_amended (ops : GeomOps) (st : GerberState) (l : List Char)
    (h : lastOpCode (l.map Char.toUpper) = some 3 ∨ lastOpCode (l.map Char.toUpper) = none) :
    (commandStep ops st l).entities = st.entities ∧
    (commandStep ops st l).curX = st.curX ∧
    (commandStep ops st l).curY = st.curY := by
  rcases h with h | h <;> simp [commandStep, h]

/-- Witness for the amended C1 at the flash line X5Y5D03. -/
theorem C1_flash_amended_witness :
    (lastOpCode ("X5Y5D03".toList.map Char.toUpper) = some 3 ∨
     lastOpCode ("X5Y5D03".toList.map Char.toUpper) = none) ∧
    ((commandStep zeroOps stateAt00 "X5Y5D03".toList).entities = stateAt00.entities ∧
     (commandStep zeroOps stateAt00 "X5Y5D03".toList).curX = stateAt00.curX ∧
     (commandStep zeroOps stateAt00 "X5Y5D03".toList).curY = stateAt00.curY) :=
  ⟨Or.inl (by with_unfolding_all decide),
   C1_flash_amended zeroOps stateAt00 "X5Y5D03".toList
     (Or.inl (by with_unfolding_all decide))⟩

/-- Claim C10: on a draw line, when any of the current or resolved next coordinates
is missing, nothing is emitted and the current position is left completely
unchanged, even when the line supplied fresh coordinates. -/
theorem C10_draw_unresolved (ops : GeomOps) (st : GerberState) (l : List Char)
    (hop : lastOpCode (l.map Char.toUpper) = some 1)
    (h : st.curX = none ∨ st.curY = none ∨
         resolveNextX st l = none ∨ resolveNextY st l = none) :
    (commandStep ops st l).entities = st.entities ∧
    (commandStep ops st l).curX = st.curX ∧
    (commandStep ops st l).curY = st.curY := by
  rcases h with h | h | h | h <;>
    rcases hx : st.curX with _ | cx <;>
    rcases hy : st.curY with _ | cy <;>
    rcases hnx : resolveNextX st l with _ | nx <;>
    rcases hny : resolveNextY st l with _ | ny <;>
    simp_all [commandStep, hop]

/-- Witness for C10: a draw line with fresh coordinates from a state with no
current position. -/
theorem C10_draw_unresolved_witness :
    lastOpCode ("X5Y5D01".toList.map Char.toUpper) = some 1 ∧
    ((commandStep zeroOps initGerberState "X5Y5D01".toList).entities =
        initGerberState.entities ∧
     (commandStep zeroOps initGerberState "X5Y5D01".toList).curX = initGerberState.curX ∧
     (commandStep zeroOps initGerberState "X5Y5D01".toList).curY = initGerberState.curY) :=
  ⟨by with_unfolding_all decide,
   C10_draw_unresolved zeroOps initGerberState "X5Y5D01".toList
     (by with_unfolding_all decide) (Or.inl rfl)⟩

/-- Claim C5: unit conversion happens once, after scanning, multiplying line
endpoints and arc centers and radii, but not arc angles, by the factor of the
units last in effect; a program that draws under millimeter mode and switches
to inch mode afterwards still gets the inch factor applied. -/
theorem C5_unit_conversion (ops : GeomOps) (lines : List String) :
    parseGerberOutline ops lines =
      (scanGerber ops lines).entities.map
        (fun e => match e with
          | .line x1 y1 x2 y2 =>
              .line (x1 * unitFactor (scanGerber ops lines).units)
                (y1 * unitFactor (scanGerber ops lines).units)
                (x2 * unitFactor (scanGerber ops lines).units)
                (y2 * unitFactor (scanGerber ops lines).units)
          | .arc cx cy r a0 a1 =>
              .arc (cx * unitFactor (scanGerber ops lines).units)
                (cy * unitFactor (scanGerber ops lines).units)
                (r * unitFactor (scanGerber ops lines).units) a0 a1) ∧
    parseGerberOutline ops ["X0Y0D02*", "X1000000Y0D01*", "%MOIN%"]
      = [.line 0 0 (127 / 5) 0] := by
  constructor
  · simp only [parseGerberOutline]
    exact convertEntities_eq_map _ _
  · have h1 : processLine ops initGerberState "X0Y0D02*" = stateAt00 := by
      with_unfolding_all rfl
    have h2 : processLine ops stateAt00 "X1000000Y0D01*" =
        { initGerberState with curX := some 1, curY := some 0, entities := [.line 0 0 1 0] } := by
      with_unfolding_all rfl
    have h3 : processLine ops
        { initGerberState with curX := some 1, curY := some 0, entities := [.line 0 0 1 0] }
        "%MOIN%" =
        { initGerberState with units := "IN", curX := some 1, curY := some 0, entities := [.line 0 0 1 0] } := by
      with_unfolding_all rfl
    simp only [parseGerberOutline, scanGerber, List.foldl_cons, List.foldl_nil, h1, h2, h3]
    simp [convertEntities, unitFactor]
    norm_num

/-- Witness for C5 with a concrete choice of geometry functions and the
discriminating program. -/
theorem C5_unit_conversion_witness :
    parseGerberOutline zeroOps ["X0Y0D02*", "X1000000Y0D01*", "%MOIN%"]
      = [.line 0 0 (127 / 5) 0] :=
  (C5_unit_conversion zeroOps []).2

/-- Claim C3: a draw in CW mode stores the arc angles swapped: the stored start
angle is the normalized direction of the next point from the center and the
stored end angle that of the current point; in particular the clockwise
quarter arc from the point ten along X to the point ten along Y around the
origin is stored with start angle 90 and end angle 0. -/
theorem C3_cw_arc_swap (ops : GeomOps)
    (h90 : ops.atan2deg 10 0 = 90) (h0 : ops.atan2deg 0 10 = 0)
    (hh : ops.hypot 10 0 = 10) :
    (∀ cX cY nX nY iO jO,
       drawEntity ops "CW" cX cY nX nY iO jO =
         .arc (cX + iO) (cY + jO)
           (ops.hypot (cX - (cX + iO)) (cY - (cY + jO)))
           (mod360 (ops.atan2deg (nY - (cY + jO)) (nX - (cX + iO))))
           (mod360 (ops.atan2deg (cY - (cY + jO)) (cX - (cX + iO))))) ∧
    parseGerberOutline ops ["X10000000Y0D02*", "G02*", "X0Y10000000I-10000000J0D01*"]
      = [.arc 0 0 10 90 0] := by
  constructor
  · intro cX cY nX nY iO jO
    rfl
  · have h1 : processLine ops initGerberState "X10000000Y0D02*" =
        { initGerberState with curX := some 10, curY := some 0 } := by
      with_unfolding_all rfl
    have h2 : processLine ops { initGerberState with curX := some 10, curY := some 0 }
        "G02*" =
        { initGerberState with mode := "CW", curX := some 10, curY := some 0 } := by
      with_unfolding_all rfl
    have h3 : processLine ops
        { initGerberState with mode := "CW", curX := some 10, curY := some 0 }
        "X0Y10000000I-10000000J0D01*" =
        { initGerberState with mode := "CW", curX := some 0, curY := some 10, entities := [.arc 0 0 (ops.hypot 10 0) (mod360 (ops.atan2deg 10 0)) (mod360 (ops.atan2deg 0 10))] } := by
      with_unfolding_all rfl
    have hf1 : (⌊(90 : ℚ) / 360⌋ : ℤ) = 0 := by
      rw [Int.floor_eq_zero_iff]
      constructor <;> norm_num
    have hf2 : (⌊(0 : ℚ) / 360⌋ : ℤ) = 0 := by
      rw [Int.floor_eq_zero_iff]
      constructor <;> norm_num
    simp only [parseGerberOutline, scanGerber, List.foldl_cons, List.foldl_nil, h1, h2, h3,
      h90, h0, hh]
    simp [convertEntities, unitFactor, mod360, hf1, hf2, initGerberState]

/-- Witness for C3 with geometry functions returning the true values at the
two axis-aligned points. -/
theorem C3_cw_arc_swap_witness :
    (axisOps.atan2deg 10 0 = 90 ∧ axisOps.atan2deg 0 10 = 0 ∧ axisOps.hypot 10 0 = 10) ∧
    parseGerberOutline axisOps ["X10000000Y0D02*", "G02*", "X0Y10000000I-10000000J0D01*"]
      = [.arc 0 0 10 90 0] :=
  ⟨⟨by with_unfolding_all decide, by with_unfolding_all decide, by with_unfolding_all decide⟩,
   (C3_cw_arc_swap axisOps (by with_unfolding_all decide) (by with_unfolding_all decide)
     (by with_unfolding_all decide)).2⟩

theorem takeLastPy_eq_takeLast {n : ℕ} (h : n ≠ 0) (ds : List Char) :
    takeLastPy n ds = takeLast n ds := by
  simp [takeLastPy, takeLast, h]

theorem leftPad_digits {ds : List Char} (total : ℕ)
    (h : ∀ c ∈ ds, c.isDigit = true) :
    ∀ c ∈ leftPad total ds, c.isDigit = true := by
  intro c hc
  rcases List.mem_append.mp hc with hrep | hmem
  · rw [List.eq_of_mem_replicate hrep]
    decide
  · exact h c hmem

theorem leftPad_length {ds : List Char} {total : ℕ} (h : ds.length ≤ total) :
    (leftPad total ds).length = total := by
  simp [leftPad]
  omega

/-- Claim C7: a pure-digit token shorter than the total width decodes, under Leading
suppression, to the same value as the token left-padded with zeros to the full
width. -/
theorem C7_leading_pad (ds : List Char) (i d : ℕ)
    (hds : ∀ c ∈ ds, c.isDigit = true) (hlen : ds.length < i + d) :
    parseGerberCoordL ds i d "L" = parseGerberCoordL (leftPad (i + d) ds) i d "L" := by
  have hstrip := stripSign_digits hds
  have hsign := signOf_digits hds
  have hdot := dot_not_mem_digits hds
  have hpds := leftPad_digits (i + d) hds
  have hplen : (leftPad (i + d) ds).length = i + d := leftPad_length (le_of_lt hlen)
  have hpstrip := stripSign_digits hpds
  have hpsign := signOf_digits hpds
  have hpdot := dot_not_mem_digits hpds
  have h1 : ¬((leftPad (i + d) ds).length < i + d) := by omega
  have h2 : ¬(i + d < (leftPad (i + d) ds).length) := by omega
  simp only [parseGerberCoordL, hstrip, hsign, hpstrip, hpsign]
  rw [if_neg hdot, if_neg hpdot, if_pos hlen, if_neg h1, if_neg h2]
  simp

/-- Witness for C7 at the token 123 under the width four format. -/
theorem C7_leading_pad_witness :
    (∀ c ∈ "123".toList, c.isDigit = true) ∧ "123".toList.length < 2 + 2 ∧
    parseGerberCoordL "123".toList 2 2 "L" =
      parseGerberCoordL (leftPad (2 + 2) "123".toList) 2 2 "L" :=
  ⟨by decide, by decide, C7_leading_pad "123".toList 2 2 (by decide) (by decide)⟩

/-- Counterexample to C8 as stated: with both digit counts zero, the token 5
is longer than the total width zero, but the decoder returns 5, not the value
of the rightmost zero digits. -/
theorem C8_truncation_counterexample :
    0 + 0 < ("5".toList).length ∧
    parseGerberCoordL "5".toList 0 0 "L" = 5 ∧
    parseGerberCoordL "5".toList 0 0 "L" ≠
      (natOfDigits (takeLast (0 + 0) "5".toList) : ℚ) / ((10 ^ 0 : ℕ) : ℚ) := by
  refine ⟨by decide, ?_, ?_⟩
  · simp [parseGerberCoordL, signOf, stripSign, takeLastPy, natOfDigits, digitVal]
  · simp [parseGerberCoordL, signOf, stripSign, takeLastPy, takeLast, natOfDigits, digitVal]

/-- Claim C8 amended: for a positive total width, a token of optional sign and more
digits than the total width decodes to the rightmost total digits read as an
integer scaled by ten to the minus decimal digits, with the sign applied; for
total width zero the Python slice keeps the whole token instead. -/
theorem C8_truncation_amended (sgn ds : List Char) (i d : ℕ) (zs : String)
    (hsgn : sgn = [] ∨ sgn = ['+'] ∨ sgn = ['-'])
    (hds : ∀ c ∈ ds, c.isDigit = true)
    (htot : 1 ≤ i + d) (hlen : i + d < ds.length) :
    parseGerberCoordL (sgn ++ ds) i d zs =
      (if sgn = ['-'] then (-1 : ℚ) else 1) *
        ((natOfDigits (takeLast (i + d) ds) : ℚ) / ((10 ^ d : ℕ) : ℚ)) := by
  have hdot := dot_not_mem_digits hds
  have h1 : ¬(ds.length < i + d) := by omega
  have htp := takeLastPy_eq_takeLast (show i + d ≠ 0 by omega) ds
  rcases hsgn with rfl | rfl | rfl
  · have hstrip := stripSign_digits hds
    have hsign := signOf_digits hds
    simp only [List.nil_append, parseGerberCoordL, hstrip, hsign]
    rw [if_neg hdot, if_neg h1, if_pos hlen, htp]
    simp
  · simp only [List.cons_append, List.nil_append]
    simp [parseGerberCoordL, stripSign, signOf, hdot, h1, hlen, htp]
  · simp only [List.cons_append, List.nil_append]
    simp [parseGerberCoordL, stripSign, signOf, hdot, h1, hlen, htp]

/-- Witness for the amended C8 at the signed token -12345 under the width two
format. -/
theorem C8_truncation_amended_witness :
    (∀ c ∈ "12345".toList, c.isDigit = true) ∧ 1 ≤ 1 + 1 ∧ 1 + 1 < "12345".toList.length ∧
    parseGerberCoordL (['-'] ++ "12345".toList) 1 1 "L" =
      (if (['-'] : List Char) = ['-'] then (-1 : ℚ) else 1) *
        ((natOfDigits (takeLast (1 + 1) "12345".toList) : ℚ) / ((10 ^ 1 : ℕ) : ℚ)) :=
  ⟨by decide, by decide, by decide,
   C8_truncation_amended ['-'] "12345".toList 1 1 "L" (Or.inr (Or.inr rfl))
     (by decide) (by decide) (by decide)⟩

theorem overMax_true_of (maxHoleSizeMm : Option ℚ) (d : ℚ)
    (h : ¬ ∀ m ∈ maxHoleSizeMm, d ≤ m) : overMax maxHoleSizeMm d = true := by
  cases maxHoleSizeMm with
  | none => exact absurd (by intro m hm; simp at hm) h
  | some m =>
      have hm : ¬ d ≤ m := by
        intro hle
        exact h (by intro x hx; rw [Option.mem_def, Option.some.injEq] at hx; exact hx ▸ hle)
      simp [overMax, lt_of_not_le hm]

/-- The action of one drill coordinate line X1Y2 on a state with a selected
tool whose table returns the given diameter: the position always becomes
(1, 2), and a hole is appended exactly when the millimeter diameter passes
both bounds. -/
theorem drillStep_coordLine (minD : ℚ) (maxD : Option ℚ) (u : String)
    (dia : ℚ) (tool : ℕ) (cx0 cy0 : Option ℚ) (hs : List (ℚ × ℚ × ℚ)) :
    drillStep minD maxD ⟨u, fun _ => some dia, some tool, cx0, cy0, hs⟩ "X1Y2" =
      (if dia * unitFactor u < minD then
        (⟨u, fun _ => some dia, some tool, some 1, some 2, hs⟩ : DrillState)
      else if overMax maxD (dia * unitFactor u) then
        (⟨u, fun _ => some dia, some tool, some 1, some 2, hs⟩ : DrillState)
      else
        (⟨u, fun _ => some dia, some tool, some 1, some 2,
          hs ++ [(1 * unitFactor u, 2 * unitFactor u, dia * unitFactor u)]⟩ : DrillState)) := by
  with_unfolding_all rfl

/-- Claim C4: on a qualifying drill coordinate line, a hole record is produced if
and only if the millimeter diameter is at least the minimum and, when a
maximum is set, at most the maximum, both bounds inclusive; and the three
reference programs give one hole, no hole and one hole respectively. -/
theorem C4_hole_filter (minD : ℚ) (maxD : Option ℚ) (u : String)
    (dia : ℚ) (tool : ℕ) (cx0 cy0 : Option ℚ) (hs : List (ℚ × ℚ × ℚ)) :
    ((minD ≤ dia * unitFactor u ∧ ∀ m ∈ maxD, dia * unitFactor u ≤ m) →
      (drillStep minD maxD ⟨u, fun _ => some dia, some tool, cx0, cy0, hs⟩ "X1Y2").holes =
        hs ++ [(1 * unitFactor u, 2 * unitFactor u, dia * unitFactor u)]) ∧
    (¬(minD ≤ dia * unitFactor u ∧ ∀ m ∈ maxD, dia * unitFactor u ≤ m) →
      (drillStep minD maxD ⟨u, fun _ => some dia, some tool, cx0, cy0, hs⟩ "X1Y2").holes = hs) ∧
    parseDrillFile ["METRIC", "T01C3.000000", "T01", "X0Y0"] 3 none = [(0, 0, 3)] ∧
    parseDrillFile ["METRIC", "T01C3.000000", "T01", "X0Y0"] (31 / 10) none = [] ∧
    parseDrillFile ["METRIC", "T01C3.000000", "T01", "X0Y0"] 2 (some 4) = [(0, 0, 3)] := by
  rw [drillStep_coordLine]
  refine ⟨?_, ?_, ?_, ?_, ?_⟩
  · rintro ⟨hmin, hmax⟩
    rw [if_neg (not_lt.mpr hmin), (overMax_false_iff maxD _).mpr hmax]
    simp
  · intro hn
    by_cases hlt : dia * unitFactor u < minD
    · rw [if_pos hlt]
    · rw [if_neg hlt]
      have hmax : ¬ ∀ m ∈ maxD, dia * unitFactor u ≤ m := by
        intro hall
        exact hn ⟨not_lt.mp hlt, hall⟩
      rw [overMax_true_of maxD _ hmax]
      simp
  · with_unfolding_all decide
  · with_unfolding_all decide
  · with_unfolding_all decide

/-- Witness for C4 at a concrete diameter and bounds. -/
theorem C4_hole_filter_witness :
    (((3 : ℚ) ≤ 3 * unitFactor "MM" ∧ ∀ m ∈ (none : Option ℚ), 3 * unitFactor "MM" ≤ m) →
      (drillStep 3 none ⟨"MM", fun _ => some 3, some 1, none, none, []⟩ "X1Y2").holes =
        [] ++ [(1 * unitFactor "MM", 2 * unitFactor "MM", 3 * unitFactor "MM")]) ∧
    (¬((3 : ℚ) ≤ 3 * unitFactor "MM" ∧ ∀ m ∈ (none : Option ℚ), 3 * unitFactor "MM" ≤ m) →
      (drillStep 3 none ⟨"MM", fun _ => some 3, some 1, none, none, []⟩ "X1Y2").holes = []) ∧
    parseDrillFile ["METRIC", "T01C3.000000", "T01", "X0Y0"] 3 none = [(0, 0, 3)] ∧
    parseDrillFile ["METRIC", "T01C3.000000", "T01", "X0Y0"] (31 / 10) none = [] ∧
    parseDrillFile ["METRIC", "T01C3.000000", "T01", "X0Y0"] 2 (some 4) = [(0, 0, 3)] :=
  C4_hole_filter 3 none "MM" 3 1 none none []

end GerberDxf
